import Mathlib

/-!
Shallow embedding of the walrus-messenger server core: the authentication and
session-lifecycle operations of `crates/server/src` (database commands and
queries, auth utilities, model validation), together with proofs of the
specified properties.

Modelling conventions:
* The relational database state is a `DbState` record of row lists; SQL
  statements become pure functions on it.  Postgres transactions are modelled
  by the command returning the original state on any error (rollback) and the
  fully written state on success (commit).
* Byte strings (`BYTEA`, tokens, hashes) are `List Nat`; timestamps
  (`TIMESTAMPTZ`) are `Int` seconds; the wall clock `current_time()` becomes an
  explicit `now : Int` argument.
* Randomly generated values (salts, session tokens, UUIDs) and the SHA-256
  hash from the `sha2` crate are external effects/primitives; they enter the
  model as explicit arguments, universally quantified in the theorems.
* Session audit columns (ip, device_name, os_version, app_version, seen-at
  timestamps) are hard-coded constants in the source and never read by any
  modelled operation, so the `SessionRow` record omits them.
-/

deriving instance DecidableEq for Except

/-- `user_role` enum (`models/user.rs`). -/
inductive UserRole
  | Admin
  | Regular
deriving DecidableEq

/-- `chat_kind` enum (`models/chat.rs`, schema type `chat_kind`). -/
inductive ChatKind
  | WithSelf
  | Private
  | Group
  | Channel
deriving DecidableEq

/-- `chat_role` enum (`models/chat.rs`, schema type `chat_role`). -/
inductive ChatRole
  | Owner
  | Moderator
  | Member
deriving DecidableEq

/-- The sqlx database errors observable in the modelled operations: a
`fetch_one` on no rows (`RowNotFound`) and a primary-key/unique-constraint
violation reported by Postgres on `INSERT`. -/
inductive SqlxError
  | RowNotFound
  | UniqueViolation
deriving DecidableEq

/-- `ValidationError` (`error.rs`). -/
inductive ValidationError
  | InvalidInput (value : String) (reason : String)
  | LimitExceeded (subject : String) (unitName : String) (attempted : Nat) (limit : Nat)
  | InsufficientPermissions (required : UserRole) (current : UserRole)
  | AlreadyExists
  | NotFound
deriving DecidableEq

/-- `RequestError` (`error.rs`). -/
inductive RequestError
  | BadCredentials
  | Interrupted
  | Expired
  | Validation (e : ValidationError)
  | Sqlx (e : SqlxError)
deriving DecidableEq

/-- `SessionError` (`error.rs`). -/
inductive SessionError
  | BadToken
  | TokenNotFound
  | TokenExpired
  | Internal
deriving DecidableEq

/-! ### Byte-slice comparison (`!=` on `&[u8]` / byte arrays)

Rust compares byte slices by first comparing lengths and then scanning the
contents with an early exit at the first differing byte (memcmp semantics).
`memcmp_early_exit` returns both the verdict on the common prefix and the
number of byte comparisons performed before returning, which is the
observable cost of the scan. -/

/-- Byte-wise comparison with early exit; returns the verdict together with
the number of byte comparisons performed. -/
def memcmp_early_exit : List Nat → List Nat → Bool × Nat
  | [], _ => (true, 0)
  | _ :: _, [] => (true, 0)
  | x :: xs, y :: ys =>
    if x = y then
      let r := memcmp_early_exit xs ys
      (r.1, r.2 + 1)
    else (false, 1)

/-- Model of Rust `==` on byte slices: length check, then content scan. -/
def slice_eq (xs ys : List Nat) : Bool :=
  decide (xs.length = ys.length) && (memcmp_early_exit xs ys).1

/-- Number of byte comparisons performed by `slice_eq` (zero when the length
check already fails). -/
def slice_eq_cost (xs ys : List Nat) : Nat :=
  if xs.length = ys.length then (memcmp_early_exit xs ys).2 else 0

theorem memcmp_early_exit_spec (xs : List Nat) :
    ∀ ys, xs.length = ys.length → ((memcmp_early_exit xs ys).1 = true ↔ xs = ys) := by
  induction xs with
  | nil =>
    intro ys h
    cases ys with
    | nil => simp [memcmp_early_exit]
    | cons y ys => simp at h
  | cons x xs ih =>
    intro ys h
    cases ys with
    | nil => simp at h
    | cons y ys =>
      simp only [List.length_cons, Nat.succ.injEq] at h
      by_cases hxy : x = y
      · subst hxy
        simpa [memcmp_early_exit] using ih ys h
      · simp [memcmp_early_exit, hxy]

theorem slice_eq_iff (xs ys : List Nat) : slice_eq xs ys = true ↔ xs = ys := by
  unfold slice_eq
  by_cases h : xs.length = ys.length
  · simpa [h] using memcmp_early_exit_spec xs ys h
  · simp only [Bool.and_eq_true, decide_eq_true_eq, h, false_and, false_iff]
    intro hc
    exact h (hc ▸ rfl)

theorem slice_eq_eq_false_iff (xs ys : List Nat) : slice_eq xs ys = false ↔ xs ≠ ys := by
  constructor
  · intro h he
    have := (slice_eq_iff xs ys).mpr he
    rw [h] at this
    exact Bool.false_ne_true this
  · intro h
    cases hb : slice_eq xs ys with
    | false => rfl
    | true => exact absurd ((slice_eq_iff xs ys).mp hb) h

/-! ### Session ids and token packing (`auth/utils.rs`) -/

/-- `SessionId = sqlx::types::Uuid`: exactly 16 raw bytes. -/
abbrev SessionId := { l : List Nat // l.length = 16 }

/-- `Uuid::from_slice`: succeeds exactly on 16-byte input. -/
def sessionIdFromSlice (l : List Nat) : Option SessionId :=
  if h : l.length = 16 then some ⟨l, h⟩ else none

/-- `pack_session_id_and_token`: the 16 raw UUID bytes followed by the token
bytes. -/
def pack_session_id_and_token (session_id : SessionId) (token : List Nat) : List Nat :=
  session_id.val ++ token

/-- `unpack_session_id_and_token`: `packed.get(..16)?` fails iff the buffer is
shorter than 16 bytes, `Uuid::from_slice` then consumes the first 16 bytes and
`packed.get(16..)?` yields the entire remainder. -/
def unpack_session_id_and_token (packed : List Nat) : Option (SessionId × List Nat) :=
  if 16 ≤ packed.length then
    match sessionIdFromSlice (packed.take 16) with
    | some session_id => some (session_id, packed.drop 16)
    | none => none
  else none

/-! ### Input validation (`models/user.rs`) -/

def USER_DISPLAY_NAME_LENGTH_LIMIT : Nat := 30
def USER_ALIAS_LENGTH_LIMIT : Nat := 30
def USER_PASSWORD_MIN_LENGTH : Nat := 8
def USER_PASSWORD_MAX_LENGTH : Nat := 80

/-- Model of the Rust standard-library predicate `char::is_alphanumeric`
(Unicode `Alphabetic` or general category `N`), written out for the Latin-1
range (code points below `0x100`), on which it is exact: ASCII digits and
letters, the letters `ª µ º` and `À`–`ÿ` except `×` and `÷`, and the numeric
characters `² ³ ¹ ¼ ½ ¾`.  Every character appearing in this development lies
in that range. -/
def char_is_alphanumeric (c : Char) : Bool :=
  decide ((0x30 ≤ c.toNat ∧ c.toNat ≤ 0x39) ∨ (0x41 ≤ c.toNat ∧ c.toNat ≤ 0x5A) ∨
    (0x61 ≤ c.toNat ∧ c.toNat ≤ 0x7A) ∨ c.toNat = 0xAA ∨ c.toNat = 0xB2 ∨ c.toNat = 0xB3 ∨
    c.toNat = 0xB5 ∨ c.toNat = 0xB9 ∨ c.toNat = 0xBA ∨ (0xBC ≤ c.toNat ∧ c.toNat ≤ 0xBE) ∨
    (0xC0 ≤ c.toNat ∧ c.toNat ≤ 0xFF ∧ c.toNat ≠ 0xD7 ∧ c.toNat ≠ 0xF7))

/-- `validate_user_alias`: reject on the first character that is neither
alphanumeric (Unicode) nor an underscore, then reject the empty string, then
reject byte length above the limit (Rust `str::len` counts UTF-8 bytes). -/
def validate_user_alias (a : String) : Except ValidationError Unit :=
  if a.data.any (fun ch => !(char_is_alphanumeric ch || ch == '_')) then
    .error (.InvalidInput a "alias can only contain letters, numbers and underscores")
  else if a.isEmpty then
    .error (.InvalidInput a "user alias cannot be empty")
  else if a.utf8ByteSize > USER_ALIAS_LENGTH_LIMIT then
    .error (.InvalidInput a "user alias cannot be longer than 30 chars")
  else .ok ()

/-- UTF-8 byte length of a character list (`str::len` of the rendered
string). -/
def utf8Len (l : List Char) : Nat := l.foldl (fun n c => n + c.utf8Size) 0

/-- Model of Rust `str::trim`: drop whitespace from both ends.  (Lean's
`Char.isWhitespace` covers the ASCII whitespace; the full Unicode
`White_Space` set of Rust differs only on exotic code points.) -/
def trimmed_data (s : String) : List Char :=
  ((s.data.dropWhile Char.isWhitespace).reverse.dropWhile Char.isWhitespace).reverse

/-- `validate_user_display_name`: the first test is
`display_name.trim().len() != display_name.len()`. -/
def validate_user_display_name (display_name : String) : Except ValidationError Unit :=
  if utf8Len (trimmed_data display_name) ≠ display_name.utf8ByteSize then
    .error (.InvalidInput display_name
      "user display name cannot be surrounded with whitespace characters")
  else if display_name.isEmpty then
    .error (.InvalidInput display_name "user display name cannot be empty")
  else if display_name.utf8ByteSize > USER_DISPLAY_NAME_LENGTH_LIMIT then
    .error (.InvalidInput display_name "user display name cannot be longer than 30 chars")
  else .ok ()

/-- `validate_user_password`: only a byte-length band, and the error renders
the value as the literal placeholder. -/
def validate_user_password (password : String) : Except ValidationError Unit :=
  if password.utf8ByteSize < USER_PASSWORD_MIN_LENGTH ∨
      password.utf8ByteSize > USER_PASSWORD_MAX_LENGTH then
    .error (.InvalidInput "<password>"
      "password should be at least 8 and at most 80 characters long")
  else .ok ()

/-! ### Rows and database state (`database/schema.rs`) -/

/-- A `users` row (columns read by the modelled operations; `created_at` and
`bio` are never read). Source column `alias` is rendered `user_alias`. -/
structure UserRow where
  id : Int
  user_alias : String
  display_name : String
  password_salt : List Nat
  password_hash : List Nat
  role : UserRole
  invited_by : Option Int
deriving DecidableEq

/-- A `chats` row. -/
structure ChatRow where
  id : Int
  display_name : Option String
  description : Option String
  kind : ChatKind
deriving DecidableEq

/-- A `chats_members` row; `(user_id, chat_id)` is the primary key
(`chat_user_pkey`). -/
structure MemberRow where
  chat_id : Int
  user_id : Int
  role : ChatRole
deriving DecidableEq

/-- A `sessions` row (audit columns omitted, see the module comment). -/
structure SessionRow where
  id : SessionId
  user_id : Int
  refresh_token : List Nat
  refresh_token_expires_at : Int
  access_token : List Nat
  access_token_expires_at : Int
  refresh_counter : Int
deriving DecidableEq

/-- The relational state: the four tables the modelled operations touch, plus
the identity-column counters for `users.id` and `chats.id`. -/
structure DbState where
  users : List UserRow
  chats : List ChatRow
  chats_members : List MemberRow
  sessions : List SessionRow
  next_user_id : Int
  next_chat_id : Int
deriving DecidableEq

/-! ### Read queries (`database/queries.rs`) -/

/-- Result shape of `get_user_credentials_by_alias`. -/
structure GetUserCredentialsByAliasResponse where
  user_id : Int
  password_hash : List Nat
  password_salt : List Nat
deriving DecidableEq

/-- Result shape of `get_access_token` (`ResolveSessionResponse`). -/
structure ResolveSessionResponse where
  user_id : Int
  access_token : List Nat
  access_token_expires_at : Int
deriving DecidableEq

/-- Result shape of `get_refresh_token`, after the `SELECT refresh_token,
refresh_token_expires_at, refresh_counter` column list. -/
structure RefreshTokenResponse where
  refresh_token : List Nat
  refresh_token_expires_at : Int
  refresh_counter : Int
deriving DecidableEq

/-- `get_user_role` row lookup; `fetch_one` on no row is `RowNotFound`,
modelled as `none` and mapped to the error at the call site. -/
def get_user_role (st : DbState) (user_id : Int) : Option UserRole :=
  (st.users.find? (fun u => decide (u.id = user_id))).map UserRow.role

/-- `get_user_id_by_alias` (`fetch_one`). -/
def get_user_id_by_alias (st : DbState) (a : String) : Option Int :=
  (st.users.find? (fun u => decide (u.user_alias = a))).map UserRow.id

/-- `get_user_credentials_by_alias` (`fetch_one` + `map_not_found_as_none`). -/
def get_user_credentials_by_alias (st : DbState) (a : String) :
    Option GetUserCredentialsByAliasResponse :=
  (st.users.find? (fun u => decide (u.user_alias = a))).map
    (fun u => ⟨u.id, u.password_hash, u.password_salt⟩)

/-- `private_chat_exists`: `EXISTS` over the self-join of `chats_members` on
equal `chat_id` and distinct `user_id`, pinned to the given pair.  The query
does not constrain the chat's `kind`. -/
def private_chat_exists (members : List MemberRow) (user_id_a user_id_b : Int) : Bool :=
  members.any (fun ma => members.any (fun mb =>
    decide (ma.chat_id = mb.chat_id ∧ ma.user_id ≠ mb.user_id ∧
      ma.user_id = user_id_a ∧ mb.user_id = user_id_b)))

/-- `is_user_in_chat`: membership existence query. -/
def is_user_in_chat (members : List MemberRow) (chat_id user_id : Int) : Bool :=
  members.any (fun m => decide (m.chat_id = chat_id ∧ m.user_id = user_id))

/-- `get_access_token` (`fetch_one` + `map_not_found_as_none`). -/
def get_access_token (sessions : List SessionRow) (session_id : SessionId) :
    Option ResolveSessionResponse :=
  (sessions.find? (fun s => decide (s.id = session_id))).map
    (fun s => ⟨s.user_id, s.access_token, s.access_token_expires_at⟩)

/-- `get_refresh_token` (`fetch_one` + `map_not_found_as_none`). -/
def get_refresh_token (sessions : List SessionRow) (session_id : SessionId) :
    Option RefreshTokenResponse :=
  (sessions.find? (fun s => decide (s.id = session_id))).map
    (fun s => ⟨s.refresh_token, s.refresh_token_expires_at, s.refresh_counter⟩)

/-- `DbConnection::resolve_session`: lookup, then byte comparison of the
provided access token, then the expiry check, then the user id. -/
def DbConnection.resolve_session (st : DbState) (session_id : SessionId)
    (access_token : List Nat) (now : Int) : Except SessionError Int :=
  match get_access_token st.sessions session_id with
  | none => .error SessionError.TokenNotFound
  | some token =>
    if !slice_eq access_token token.access_token then .error SessionError.TokenNotFound
    else if token.access_token_expires_at ≤ now then .error SessionError.TokenExpired
    else .ok token.user_id

/-! ### Write commands (`database/commands.rs`) -/

/-- `MAX_SESSIONS_PER_USER`. -/
def MAX_SESSIONS_PER_USER : Nat := 100

/-- `REFRESH_TOKEN_TTL = chrono::Duration::days(14)`, in seconds. -/
def REFRESH_TOKEN_TTL : Int := 14 * 24 * 60 * 60

/-- `ACCESS_TOKEN_TTL = chrono::Duration::hours(2)`, in seconds. -/
def ACCESS_TOKEN_TTL : Int := 2 * 60 * 60

/-- Modelled from the spec: `TokenExchangePayload` (`auth/token.rs` exposes it
to `commands.rs`, but its declaration is not among the source files); the spec
describes it as the four token/expiry fields plus the session id, transported
packed and base64-encoded.  The model records the field values before
transport encoding. -/
structure TokenExchangePayload where
  session_id : SessionId
  refresh_token : List Nat
  refresh_token_expires_at : Int
  access_token : List Nat
  access_token_expires_at : Int
deriving DecidableEq

/-- `create_user`: `INSERT INTO users`; the `UNIQUE` constraint on `alias`
rejects a duplicate. -/
def create_user (st : DbState) (a display_name : String)
    (password_salt password_hash : List Nat) (role : UserRole) (invited_by : Option Int) :
    Except SqlxError (Int × DbState) :=
  if st.users.any (fun u => decide (u.user_alias = a)) then .error .UniqueViolation
  else
    .ok (st.next_user_id,
      { st with
        users := st.users ++
          [⟨st.next_user_id, a, display_name, password_salt, password_hash, role, invited_by⟩],
        next_user_id := st.next_user_id + 1 })

/-- `create_chat`: `INSERT INTO chats ... RETURNING id`. -/
def create_chat (st : DbState) (display_name description : Option String) (kind : ChatKind) :
    Int × DbState :=
  (st.next_chat_id,
   { st with
     chats := st.chats ++ [⟨st.next_chat_id, display_name, description, kind⟩],
     next_chat_id := st.next_chat_id + 1 })

/-- `add_member_to_chat`: `INSERT INTO chats_members`; the primary key
`(user_id, chat_id)` rejects a duplicate pair. -/
def add_member_to_chat (st : DbState) (user_id chat_id : Int) (role : ChatRole) :
    Except SqlxError DbState :=
  if st.chats_members.any (fun m => decide (m.user_id = user_id ∧ m.chat_id = chat_id)) then
    .error .UniqueViolation
  else .ok { st with chats_members := st.chats_members ++ [⟨chat_id, user_id, role⟩] }

/-- `create_with_self_chat` (transaction body): a `WithSelf` chat row plus an
`Owner` membership for the caller. -/
def create_with_self_chat (st : DbState) (caller : Int) : Except SqlxError (Int × DbState) :=
  let step := create_chat st none none ChatKind.WithSelf
  match add_member_to_chat step.2 caller step.1 ChatRole.Owner with
  | .error e => .error e
  | .ok st2 => .ok (step.1, st2)

/-- The free function `create_private_chat` (transaction body, named `_tx`
here because the Lean name `create_private_chat` is taken by the
`DbConnection` method wrapper below): a `Private` chat row plus `Member`
memberships for caller and recipient. -/
def create_private_chat_tx (st : DbState) (caller recipient : Int) :
    Except SqlxError (Int × DbState) :=
  let step := create_chat st none none ChatKind.Private
  match add_member_to_chat step.2 caller step.1 ChatRole.Member with
  | .error e => .error e
  | .ok st2 =>
    match add_member_to_chat st2 recipient step.1 ChatRole.Member with
    | .error e => .error e
    | .ok st3 => .ok (step.1, st3)

/-- `create_session`: `INSERT INTO sessions` with `refresh_counter = 1`; the
server-generated UUID is the explicit `session_id` argument, and the `uuid`
primary key rejects a duplicate. -/
def create_session (st : DbState) (session_id : SessionId) (user_id : Int)
    (refresh_token : List Nat) (refresh_token_expires_at : Int)
    (access_token : List Nat) (access_token_expires_at : Int) :
    Except SqlxError (SessionId × DbState) :=
  if st.sessions.any (fun s => decide (s.id = session_id)) then .error .UniqueViolation
  else
    .ok (session_id,
      { st with
        sessions := st.sessions ++
          [⟨session_id, user_id, refresh_token, refresh_token_expires_at,
            access_token, access_token_expires_at, 1⟩] })

/-- `update_session_tokens`: `UPDATE sessions SET`, the four token/expiry
fields and `refresh_counter = refresh_counter + 1`, `WHERE id = $5 AND
refresh_counter = $6`; returns `rows_affected() != 0` with the updated
table. -/
def update_session_tokens (sessions : List SessionRow) (session_id : SessionId)
    (refresh_token : List Nat) (refresh_token_expires_at : Int)
    (access_token : List Nat) (access_token_expires_at : Int)
    (refresh_counter : Int) : Bool × List SessionRow :=
  (sessions.any (fun s => decide (s.id = session_id ∧ s.refresh_counter = refresh_counter)),
   sessions.map (fun s =>
     if s.id = session_id ∧ s.refresh_counter = refresh_counter then
       { s with
         refresh_token := refresh_token,
         refresh_token_expires_at := refresh_token_expires_at,
         access_token := access_token,
         access_token_expires_at := access_token_expires_at,
         refresh_counter := s.refresh_counter + 1 }
     else s))

/-- `remove_session`: `DELETE FROM sessions WHERE id = $1`. -/
def remove_session (sessions : List SessionRow) (session_id : SessionId) : List SessionRow :=
  sessions.filter (fun s => !decide (s.id = session_id))

/-- Descending order on `access_token_expires_at` (the `ORDER BY ... DESC`). -/
def session_newer (a b : SessionRow) : Prop :=
  b.access_token_expires_at ≤ a.access_token_expires_at

instance : DecidableRel session_newer :=
  fun a b => Int.decLe b.access_token_expires_at a.access_token_expires_at

instance : IsTotal SessionRow session_newer :=
  ⟨fun a b => Int.le_total b.access_token_expires_at a.access_token_expires_at⟩

instance : IsTrans SessionRow session_newer :=
  ⟨fun _ _ _ hab hbc => le_trans hbc hab⟩

/-- `trim_sessions_for_user`: delete every session of the user beyond the
first `max_sessions` in descending `access_token_expires_at` order (the inner
`SELECT ... ORDER BY access_token_expires_at DESC OFFSET $2`). -/
def trim_sessions_for_user (sessions : List SessionRow) (user_id : Int)
    (max_sessions : Nat) : List SessionRow :=
  let doomed :=
    ((sessions.filter (fun s => decide (s.user_id = user_id))).insertionSort
      session_newer).drop max_sessions
  sessions.filter (fun s => !doomed.any (fun d => decide (d.id = s.id)))

/-! ### `DbConnection` operations (`database/commands.rs`) -/

/-- `InviteUserRequest` (`models/user.rs`). Source field `alias` is rendered
`user_alias`. -/
structure InviteUserRequest where
  user_alias : String
  display_name : String
  role : UserRole
  initial_password : String
deriving DecidableEq

/-- `DbConnection::invite_user`, one transaction: role gate, validation,
salted hash, `create_user`, `create_with_self_chat`, commit.  The SHA-256 of
the `sha2` crate is the `hash_password` argument, the generated salt the
`password_salt` argument. -/
def DbConnection.invite_user (st : DbState) (caller : Int) (request : InviteUserRequest)
    (password_salt : List Nat) (hash_password : String → List Nat → List Nat) :
    Except RequestError Int × DbState :=
  match get_user_role st caller with
  | none => (.error (.Sqlx .RowNotFound), st)
  | some current_role =>
    if current_role ≠ UserRole.Admin then
      (.error (.Validation (.InsufficientPermissions UserRole.Admin current_role)), st)
    else
      match validate_user_alias request.user_alias with
      | .error e => (.error (.Validation e), st)
      | .ok _ =>
      match validate_user_display_name request.display_name with
      | .error e => (.error (.Validation e), st)
      | .ok _ =>
      match validate_user_password request.initial_password with
      | .error e => (.error (.Validation e), st)
      | .ok _ =>
      match create_user st request.user_alias request.display_name password_salt
          (hash_password request.initial_password password_salt) request.role (some caller) with
      | .error e => (.error (.Sqlx e), st)
      | .ok (user_id, st1) =>
        match create_with_self_chat st1 user_id with
        | .error e => (.error (.Sqlx e), st)
        | .ok (_, st2) => (.ok user_id, st2)

/-- `DbConnection::create_private_chat`: resolve the recipient alias
(`fetch_one`), check `private_chat_exists`, then run the insert transaction. -/
def DbConnection.create_private_chat (st : DbState) (caller : Int) (recipient_alias : String) :
    Except RequestError Int × DbState :=
  match get_user_id_by_alias st recipient_alias with
  | none => (.error (.Sqlx .RowNotFound), st)
  | some recipient_id =>
    if private_chat_exists st.chats_members caller recipient_id then
      (.error (.Validation .AlreadyExists), st)
    else
      match create_private_chat_tx st caller recipient_id with
      | .error e => (.error (.Sqlx e), st)
      | .ok (chat_id, st1) => (.ok chat_id, st1)

/-- `DbConnection::login`, one transaction: credential lookup (missing alias
and hash mismatch both yield `BadCredentials`), session creation, session
trim, commit. The freshly generated 32-byte tokens and the session UUID are
explicit arguments. -/
def DbConnection.login (st : DbState) (a password : String)
    (hash_password : String → List Nat → List Nat)
    (refresh_token access_token : List Nat) (session_id : SessionId) (now : Int) :
    Except RequestError TokenExchangePayload × DbState :=
  match get_user_credentials_by_alias st a with
  | none => (.error RequestError.BadCredentials, st)
  | some creds =>
    if !slice_eq (hash_password password creds.password_salt) creds.password_hash then
      (.error RequestError.BadCredentials, st)
    else
      let refresh_token_expires_at := now + REFRESH_TOKEN_TTL
      let access_token_expires_at := now + ACCESS_TOKEN_TTL
      match create_session st session_id creds.user_id refresh_token refresh_token_expires_at
          access_token access_token_expires_at with
      | .error e => (.error (.Sqlx e), st)
      | .ok (sid, st1) =>
        (.ok ⟨sid, refresh_token, refresh_token_expires_at, access_token,
            access_token_expires_at⟩,
         { st1 with
           sessions := trim_sessions_for_user st1.sessions creds.user_id MAX_SESSIONS_PER_USER })

/-- `DbConnection::logout`: unconditional delete. -/
def DbConnection.logout (st : DbState) (session_id : SessionId) : DbState :=
  { st with sessions := remove_session st.sessions session_id }

/-- `DbConnection::refresh_session`, one transaction: lookup (missing session
and token mismatch both yield `BadCredentials`), expiry check, fresh token
generation, the optimistic `update_session_tokens` on the fetched counter;
zero rows affected aborts with `Interrupted` before commit. -/
def DbConnection.refresh_session (st : DbState) (session_id : SessionId)
    (refresh_token : List Nat) (new_refresh_token new_access_token : List Nat) (now : Int) :
    Except RequestError TokenExchangePayload × DbState :=
  match get_refresh_token st.sessions session_id with
  | none => (.error RequestError.BadCredentials, st)
  | some from_db =>
    if !slice_eq refresh_token from_db.refresh_token then
      (.error RequestError.BadCredentials, st)
    else if from_db.refresh_token_expires_at ≤ now then
      (.error RequestError.Expired, st)
    else
      let refresh_token_expires_at := now + REFRESH_TOKEN_TTL
      let access_token_expires_at := now + ACCESS_TOKEN_TTL
      let updated := update_session_tokens st.sessions session_id new_refresh_token
        refresh_token_expires_at new_access_token access_token_expires_at
        from_db.refresh_counter
      if !updated.1 then (.error RequestError.Interrupted, st)
      else
        (.ok ⟨session_id, new_refresh_token, refresh_token_expires_at, new_access_token,
            access_token_expires_at⟩,
         { st with sessions := updated.2 })

/-! ### Claim C8: token packing round-trip -/

/-- C8: packing a session id with a token and unpacking is the identity;
unpacking any buffer fails exactly when it is shorter than 16 bytes, and
otherwise yields the UUID built from the first 16 bytes paired with the
entire remainder. -/
theorem C8_pack_unpack_roundtrip :
    (∀ (session_id : SessionId) (token : List Nat),
      unpack_session_id_and_token (pack_session_id_and_token session_id token) =
        some (session_id, token)) ∧
    (∀ packed : List Nat, unpack_session_id_and_token packed = none ↔ packed.length < 16) ∧
    (∀ packed : List Nat, 16 ≤ packed.length →
      ∃ session_id : SessionId,
        unpack_session_id_and_token packed = some (session_id, packed.drop 16) ∧
        session_id.val = packed.take 16) := by
  refine ⟨?_, ?_, ?_⟩
  · intro session_id token
    have hlen : (pack_session_id_and_token session_id token).length = 16 + token.length := by
      simp [pack_session_id_and_token, session_id.property]
    have htake : (pack_session_id_and_token session_id token).take 16 = session_id.val :=
      List.take_left' session_id.property
    have hdrop : (pack_session_id_and_token session_id token).drop 16 = token :=
      List.drop_left' session_id.property
    unfold unpack_session_id_and_token
    rw [hlen, htake, hdrop]
    have h16 : 16 ≤ 16 + token.length := by omega
    simp only [h16, if_true]
    unfold sessionIdFromSlice
    simp [session_id.property]
  · intro packed
    unfold unpack_session_id_and_token
    by_cases h : 16 ≤ packed.length
    · have htl : (packed.take 16).length = 16 := by
        simp [List.length_take]
        omega
      simp only [h, if_true, sessionIdFromSlice, htl]
      simp
      omega
    · simp only [h, if_false]
      simp
      omega
  · intro packed h
    have htl : (packed.take 16).length = 16 := by
      simp [List.length_take]
      omega
    refine ⟨⟨packed.take 16, htl⟩, ?_, rfl⟩
    unfold unpack_session_id_and_token
    simp only [h, if_true, sessionIdFromSlice, htl]
    simp

/-- Witness for C8 at a concrete 20-byte buffer. -/
theorem C8_pack_unpack_roundtrip_witness :
    ∃ session_id : SessionId,
      unpack_session_id_and_token (List.range 20) =
        some (session_id, (List.range 20).drop 16) ∧
      session_id.val = (List.range 20).take 16 :=
  C8_pack_unpack_roundtrip.2.2 (List.range 20) (by decide)

/-! ### Claim C3: access-token resolution -/

theorem get_access_token_eq_none_iff (sessions : List SessionRow) (session_id : SessionId) :
    get_access_token sessions session_id = none ↔ ∀ s ∈ sessions, s.id ≠ session_id := by
  unfold get_access_token
  rw [Option.map_eq_none', List.find?_eq_none]
  simp

/-- C3: `resolve_session` yields `TokenNotFound` exactly when the session row
is absent or the provided bytes mismatch (one identical error for both
cases), `TokenExpired` exactly when the bytes match and the stored expiry is
at or before `now` (so the expiry check happens only after a token match),
and the session's user id exactly when the bytes match and the token is not
expired. -/
theorem C3_resolve_access_token (st : DbState) (session_id : SessionId)
    (access_token : List Nat) (now : Int) :
    (DbConnection.resolve_session st session_id access_token now =
        .error SessionError.TokenNotFound ↔
      (∀ s ∈ st.sessions, s.id ≠ session_id) ∨
      ∃ t, get_access_token st.sessions session_id = some t ∧
        access_token ≠ t.access_token) ∧
    (DbConnection.resolve_session st session_id access_token now =
        .error SessionError.TokenExpired ↔
      ∃ t, get_access_token st.sessions session_id = some t ∧
        access_token = t.access_token ∧ t.access_token_expires_at ≤ now) ∧
    (∀ user_id : Int,
      DbConnection.resolve_session st session_id access_token now = .ok user_id ↔
      ∃ t, get_access_token st.sessions session_id = some t ∧
        access_token = t.access_token ∧ now < t.access_token_expires_at ∧
        user_id = t.user_id) := by
  have hne_forall : ∀ t, get_access_token st.sessions session_id = some t →
      ¬(∀ s ∈ st.sessions, s.id ≠ session_id) := by
    intro t ht h
    rw [(get_access_token_eq_none_iff st.sessions session_id).mpr h] at ht
    exact Option.noConfusion ht
  cases hga : get_access_token st.sessions session_id with
  | none =>
    have hnone := (get_access_token_eq_none_iff st.sessions session_id).mp hga
    refine ⟨?_, ?_, ?_⟩
    · simp [DbConnection.resolve_session, hga]
      exact hnone
    · simp [DbConnection.resolve_session, hga]
    · intro user_id
      simp [DbConnection.resolve_session, hga]
  | some t =>
    have hmem := hne_forall t hga
    by_cases htok : access_token = t.access_token
    · subst htok
      have heq : slice_eq t.access_token t.access_token = true := (slice_eq_iff _ _).mpr rfl
      by_cases hexp : t.access_token_expires_at ≤ now
      · have hres : DbConnection.resolve_session st session_id t.access_token now =
            .error SessionError.TokenExpired := by
          simp [DbConnection.resolve_session, hga, heq, hexp]
        have hnlt : ¬now < t.access_token_expires_at := by omega
        refine ⟨?_, ?_, ?_⟩
        · simp [hres, hga, hmem]
        · simp [hres, hga, hexp]
        · intro user_id
          simp [hres, hga, hnlt]
      · have hres : DbConnection.resolve_session st session_id t.access_token now =
            .ok t.user_id := by
          simp [DbConnection.resolve_session, hga, heq, hexp]
        have hlt : now < t.access_token_expires_at := by omega
        refine ⟨?_, ?_, ?_⟩
        · simp [hres, hga, hmem]
        · simp [hres, hga, hexp]
        · intro user_id
          simp [hres, hga, hlt]
          exact eq_comm
    · have hne : slice_eq access_token t.access_token = false :=
        (slice_eq_eq_false_iff _ _).mpr htok
      have hres : DbConnection.resolve_session st session_id access_token now =
          .error SessionError.TokenNotFound := by
        simp [DbConnection.resolve_session, hga, hne]
      refine ⟨?_, ?_, ?_⟩
      · simp [hres, hga, htok]
      · simp [hres, hga, htok]
      · intro user_id
        simp [hres, hga, htok]

/-! ### Claim C4: alias validation -/

/-- The character class `[A-Za-z0-9_]` named by the specification
(`Char.isAlphanum` is the ASCII alphanumeric predicate). -/
def ascii_alias_char (c : Char) : Bool := c.isAlphanum || c == '_'

/-- C4 counterexample: the alias `"é"` is accepted by `validate_user_alias`
(Rust's `char::is_alphanumeric` covers all Unicode alphanumerics) although it
contains a character outside `[A-Za-z0-9_]`, so acceptance is not equivalent
to the claimed ASCII character class. -/
theorem C4_alias_charset_counterexample :
    validate_user_alias "é" = .ok () ∧ "é".data.all ascii_alias_char = false := by
  decide

/-- C4 (amended): `validate_user_alias` accepts exactly the non-empty aliases
of UTF-8 byte length at most 30 all of whose characters are Unicode
alphanumerics or underscores — a strictly larger class than `[A-Za-z0-9_]` —
and every rejection is an `InvalidInput` carrying the offending alias as its
value. -/
theorem C4_alias_validation :
    (∀ a : String,
      validate_user_alias a = .ok () ↔
        a ≠ "" ∧ a.utf8ByteSize ≤ USER_ALIAS_LENGTH_LIMIT ∧
          ∀ c ∈ a.data, (char_is_alphanumeric c || c == '_') = true) ∧
    (∀ (a : String) (e : ValidationError), validate_user_alias a = .error e →
      ∃ reason, e = .InvalidInput a reason) := by
  constructor
  · intro a
    unfold validate_user_alias
    by_cases h1 : a.data.any (fun ch => !(char_is_alphanumeric ch || ch == '_')) = true
    · simp only [h1, if_true]
      constructor
      · intro h
        exact absurd h (by simp)
      · rintro ⟨-, -, hall⟩
        rw [List.any_eq_true] at h1
        obtain ⟨c, hc, hbad⟩ := h1
        rw [hall c hc] at hbad
        exact absurd hbad (by simp)
    · rw [Bool.not_eq_true] at h1
      have hall := List.any_eq_false.mp h1
      simp only [h1, Bool.false_eq_true, if_false]
      by_cases h2 : a.isEmpty = true
      · have ha : a = "" := (String.isEmpty_iff a).mp h2
        simp only [h2, if_true]
        constructor
        · intro h
          exact absurd h (by simp)
        · rintro ⟨hne, -, -⟩
          exact absurd ha hne
      · rw [Bool.not_eq_true] at h2
        have hne : a ≠ "" := by
          intro he
          rw [(String.isEmpty_iff a).mpr he] at h2
          exact absurd h2 (by simp)
        simp only [h2, Bool.false_eq_true, if_false]
        by_cases h3 : a.utf8ByteSize > USER_ALIAS_LENGTH_LIMIT
        · simp only [h3, if_true]
          constructor
          · intro h
            exact absurd h (by simp)
          · rintro ⟨-, hsize, -⟩
            omega
        · simp only [h3, if_false]
          have hsize : a.utf8ByteSize ≤ USER_ALIAS_LENGTH_LIMIT := by omega
          constructor
          · intro _
            refine ⟨hne, hsize, ?_⟩
            intro c hc
            have h4 := hall c hc
            cases hb : (char_is_alphanumeric c || c == '_') with
            | true => rfl
            | false => simp [hb] at h4
          · intro _
            trivial
  · intro a e h
    unfold validate_user_alias at h
    split at h
    · cases h
      exact ⟨_, rfl⟩
    · split at h
      · cases h
        exact ⟨_, rfl⟩
      · split at h
        · cases h
          exact ⟨_, rfl⟩
        · cases h

/-- Witness for C4 at a concrete accepted alias. -/
theorem C4_alias_validation_witness :
    validate_user_alias "walrus_01" = .ok () :=
  (C4_alias_validation.1 "walrus_01").mpr (by decide)

/-! ### Claim C9: the secret comparisons are not constant-time -/

/-- Concrete session ids used by witness states. -/
def sidW1 : SessionId := ⟨List.replicate 16 1, by decide⟩

def sidW2 : SessionId := ⟨List.replicate 16 2, by decide⟩

/-- State whose single session stores a 32-zero-byte access token. -/
def stC9 : DbState :=
  { users := [], chats := [], chats_members := [],
    sessions := [⟨sidW1, 2, List.replicate 32 0, 1000, List.replicate 32 0, 500, 1⟩],
    next_user_id := 1, next_chat_id := 1 }

/-- C9 (the code at the failing input): `resolve_session` compares the
provided bytes to the stored 32-zero-byte access token with the early-exit
slice equality; two wrong tokens of the full 32-byte length cost 1 byte
comparison (difference at the first byte) versus 32 (difference at the last
byte), and the match also costs 32 — the comparison cost is
content-dependent on equal-length inputs, so the `!=` used by
`resolve_session`, `login` and `refresh_session` is not constant-time. -/
theorem C9_comparison_not_constant_time :
    slice_eq (1 :: List.replicate 31 0) (List.replicate 32 0) = false ∧
    slice_eq (List.replicate 31 0 ++ [1]) (List.replicate 32 0) = false ∧
    slice_eq_cost (1 :: List.replicate 31 0) (List.replicate 32 0) = 1 ∧
    slice_eq_cost (List.replicate 31 0 ++ [1]) (List.replicate 32 0) = 32 ∧
    slice_eq_cost (List.replicate 32 0) (List.replicate 32 0) = 32 ∧
    DbConnection.resolve_session stC9 sidW1 (1 :: List.replicate 31 0) 100 =
      .error SessionError.TokenNotFound ∧
    DbConnection.resolve_session stC9 sidW1 (List.replicate 31 0 ++ [1]) 100 =
      .error SessionError.TokenNotFound ∧
    DbConnection.resolve_session stC9 sidW1 (List.replicate 32 0) 100 = .ok 2 := by
  decide

/-! ### Claim C10: `create_private_chat` with the caller's own alias -/

/-- C10: the duplicate-pair existence check is always false for a self-pair,
and resolving one's own alias makes the transaction insert the same
`(user_id, chat_id)` membership twice, so it aborts on the primary-key
violation and rolls back: the call returns the storage error — never success
and never `AlreadyExists` — with the state unchanged. -/
theorem C10_self_private_chat (st : DbState) (caller : Int) (caller_alias : String)
    (hres : get_user_id_by_alias st caller_alias = some caller)
    (hfresh : ∀ m ∈ st.chats_members, m.chat_id ≠ st.next_chat_id) :
    private_chat_exists st.chats_members caller caller = false ∧
    DbConnection.create_private_chat st caller caller_alias =
      (.error (.Sqlx .UniqueViolation), st) := by
  have hpce : private_chat_exists st.chats_members caller caller = false := by
    unfold private_chat_exists
    rw [List.any_eq_false]
    intro ma hma
    rw [Bool.not_eq_true, List.any_eq_false]
    intro mb hmb
    simp only [decide_eq_true_eq, not_and]
    intro _ hne ha hb
    exact hne (ha.trans hb.symm)
  refine ⟨hpce, ?_⟩
  have h1 : ¬∃ x ∈ st.chats_members, x.user_id = caller ∧ x.chat_id = st.next_chat_id := by
    rintro ⟨x, hx, -, hchat⟩
    exact hfresh x hx hchat
  have h2 : ∃ x ∈ st.chats_members ++
      [(⟨st.next_chat_id, caller, ChatRole.Member⟩ : MemberRow)],
      x.user_id = caller ∧ x.chat_id = st.next_chat_id := by
    refine ⟨⟨st.next_chat_id, caller, ChatRole.Member⟩, ?_, rfl, rfl⟩
    simp
  simp only [DbConnection.create_private_chat, hres, hpce, Bool.false_eq_true, if_false,
    create_private_chat_tx, create_chat, add_member_to_chat]
  simp [h1, h2]

/-- State for the C10 witness: Alice (id 1) shares a group chat (id 0); the
next chat id is 1. -/
def stC10 : DbState :=
  { users := [⟨1, "alice", "Alice", [0], [0], UserRole.Regular, none⟩],
    chats := [⟨0, none, none, ChatKind.Group⟩],
    chats_members := [⟨0, 1, ChatRole.Member⟩],
    sessions := [], next_user_id := 2, next_chat_id := 1 }

/-- Witness for C10: Alice invites herself. -/
theorem C10_self_private_chat_witness :
    private_chat_exists stC10.chats_members 1 1 = false ∧
    DbConnection.create_private_chat stC10 1 "alice" =
      (.error (.Sqlx .UniqueViolation), stC10) :=
  C10_self_private_chat stC10 1 "alice" (by decide) (by decide)

/-! ### Claim C6: enumeration-oracle collapse -/

/-- C6: `login` returns the one `BadCredentials` value, with the state
unchanged, both when the alias does not exist and when the presented password
hashes to a value different from the stored hash; `refresh_session` returns
the same single `BadCredentials` value both when the session id does not
exist and when the presented refresh-token bytes mismatch — the result does
not distinguish non-existence from a wrong secret. -/
theorem C6_credential_collapse :
    (∀ (st : DbState) (a password : String) (hash_password : String → List Nat → List Nat)
        (refresh_token access_token : List Nat) (session_id : SessionId) (now : Int),
      get_user_credentials_by_alias st a = none →
      DbConnection.login st a password hash_password refresh_token access_token session_id now =
        (.error RequestError.BadCredentials, st)) ∧
    (∀ (st : DbState) (a password : String) (hash_password : String → List Nat → List Nat)
        (refresh_token access_token : List Nat) (session_id : SessionId) (now : Int)
        (creds : GetUserCredentialsByAliasResponse),
      get_user_credentials_by_alias st a = some creds →
      hash_password password creds.password_salt ≠ creds.password_hash →
      DbConnection.login st a password hash_password refresh_token access_token session_id now =
        (.error RequestError.BadCredentials, st)) ∧
    (∀ (st : DbState) (session_id : SessionId)
        (refresh_token new_refresh new_access : List Nat) (now : Int),
      get_refresh_token st.sessions session_id = none →
      DbConnection.refresh_session st session_id refresh_token new_refresh new_access now =
        (.error RequestError.BadCredentials, st)) ∧
    (∀ (st : DbState) (session_id : SessionId)
        (refresh_token new_refresh new_access : List Nat) (now : Int)
        (from_db : RefreshTokenResponse),
      get_refresh_token st.sessions session_id = some from_db →
      refresh_token ≠ from_db.refresh_token →
      DbConnection.refresh_session st session_id refresh_token new_refresh new_access now =
        (.error RequestError.BadCredentials, st)) := by
  refine ⟨?_, ?_, ?_, ?_⟩
  · intro st a password hash_password refresh_token access_token session_id now h
    simp [DbConnection.login, h]
  · intro st a password hash_password refresh_token access_token session_id now creds h hne
    have hfalse : slice_eq (hash_password password creds.password_salt) creds.password_hash =
        false := (slice_eq_eq_false_iff _ _).mpr hne
    simp [DbConnection.login, h, hfalse]
  · intro st session_id refresh_token new_refresh new_access now h
    simp [DbConnection.refresh_session, h]
  · intro st session_id refresh_token new_refresh new_access now from_db h hne
    have hfalse : slice_eq refresh_token from_db.refresh_token = false :=
      (slice_eq_eq_false_iff _ _).mpr hne
    simp [DbConnection.refresh_session, h, hfalse]

/-- Witness for C6: login with an unknown alias on a state with no users. -/
theorem C6_credential_collapse_witness :
    DbConnection.login stC9 "ghost" "password" (fun _ _ => [0]) [1] [2] sidW2 0 =
      (.error RequestError.BadCredentials, stC9) :=
  C6_credential_collapse.1 stC9 "ghost" "password" (fun _ _ => [0]) [1] [2] sidW2 0 (by decide)

/-! ### Claim C1: optimistic refresh -/

/-- C1: `update_session_tokens` reports an update exactly when some session
row carries the given id and the expected counter; on zero affected rows the
table is unchanged; an affected row receives the four new token/expiry fields
and the counter `expected + 1`, and unaffected rows persist unchanged.
Consequently `refresh_session` (after its guards pass) returns `Interrupted`
with the whole state rolled back exactly when the conditional update affects
zero rows, and after one update from a fetched counter a second conditional
update from that same counter affects zero rows — of two refresh attempts
made from the same fetched counter at most one can succeed. -/
theorem C1_refresh_optimistic_concurrency :
    (∀ (sessions : List SessionRow) (session_id : SessionId) (rt : List Nat) (re : Int)
        (at1 : List Nat) (ae : Int) (c : Int),
      (update_session_tokens sessions session_id rt re at1 ae c).1 = true ↔
        ∃ s ∈ sessions, s.id = session_id ∧ s.refresh_counter = c) ∧
    (∀ (sessions : List SessionRow) (session_id : SessionId) (rt : List Nat) (re : Int)
        (at1 : List Nat) (ae : Int) (c : Int),
      (update_session_tokens sessions session_id rt re at1 ae c).1 = false →
      (update_session_tokens sessions session_id rt re at1 ae c).2 = sessions) ∧
    (∀ (sessions : List SessionRow) (session_id : SessionId) (rt : List Nat) (re : Int)
        (at1 : List Nat) (ae : Int) (c : Int) (s : SessionRow),
      s ∈ sessions → s.id = session_id → s.refresh_counter = c →
      ({ s with
         refresh_token := rt, refresh_token_expires_at := re,
         access_token := at1, access_token_expires_at := ae,
         refresh_counter := c + 1 } : SessionRow) ∈
        (update_session_tokens sessions session_id rt re at1 ae c).2) ∧
    (∀ (sessions : List SessionRow) (session_id : SessionId) (rt : List Nat) (re : Int)
        (at1 : List Nat) (ae : Int) (c : Int) (s : SessionRow),
      s ∈ sessions → ¬(s.id = session_id ∧ s.refresh_counter = c) →
      s ∈ (update_session_tokens sessions session_id rt re at1 ae c).2) ∧
    (∀ (st : DbState) (session_id : SessionId)
        (refresh_token new_refresh new_access : List Nat) (now : Int)
        (from_db : RefreshTokenResponse),
      get_refresh_token st.sessions session_id = some from_db →
      refresh_token = from_db.refresh_token →
      ¬from_db.refresh_token_expires_at ≤ now →
      (DbConnection.refresh_session st session_id refresh_token new_refresh new_access now =
          (.error RequestError.Interrupted, st) ↔
        (update_session_tokens st.sessions session_id new_refresh (now + REFRESH_TOKEN_TTL)
          new_access (now + ACCESS_TOKEN_TTL) from_db.refresh_counter).1 = false)) ∧
    (∀ (sessions : List SessionRow) (session_id : SessionId) (rt1 : List Nat) (re1 : Int)
        (at1 : List Nat) (ae1 : Int) (c : Int) (rt2 : List Nat) (re2 : Int)
        (at2 : List Nat) (ae2 : Int),
      (update_session_tokens
        (update_session_tokens sessions session_id rt1 re1 at1 ae1 c).2
        session_id rt2 re2 at2 ae2 c).1 = false) := by
  refine ⟨?_, ?_, ?_, ?_, ?_, ?_⟩
  · intro sessions session_id rt re at1 ae c
    simp [update_session_tokens, List.any_eq_true]
  · intro sessions session_id rt re at1 ae c h
    unfold update_session_tokens at h ⊢
    simp only [List.any_eq_false, decide_eq_true_eq] at h
    simp only []
    have hcongr : ∀ s ∈ sessions,
        (if s.id = session_id ∧ s.refresh_counter = c then
          ({ s with
             refresh_token := rt, refresh_token_expires_at := re,
             access_token := at1, access_token_expires_at := ae,
             refresh_counter := s.refresh_counter + 1 } : SessionRow)
         else s) = id s := by
      intro s hs
      simp [h s hs]
    rw [List.map_congr_left hcongr, List.map_id]
  · intro sessions session_id rt re at1 ae c s hs hid hc
    unfold update_session_tokens
    simp only []
    have := List.mem_map_of_mem (fun s : SessionRow =>
      if s.id = session_id ∧ s.refresh_counter = c then
        ({ s with
           refresh_token := rt, refresh_token_expires_at := re,
           access_token := at1, access_token_expires_at := ae,
           refresh_counter := s.refresh_counter + 1 } : SessionRow)
      else s) hs
    simpa [hid, hc] using this
  · intro sessions session_id rt re at1 ae c s hs hneg
    unfold update_session_tokens
    simp only []
    have := List.mem_map_of_mem (fun s : SessionRow =>
      if s.id = session_id ∧ s.refresh_counter = c then
        ({ s with
           refresh_token := rt, refresh_token_expires_at := re,
           access_token := at1, access_token_expires_at := ae,
           refresh_counter := s.refresh_counter + 1 } : SessionRow)
      else s) hs
    simpa [hneg] using this
  · intro st session_id refresh_token new_refresh new_access now from_db hget htok hexp
    have heq : slice_eq refresh_token from_db.refresh_token = true :=
      (slice_eq_iff _ _).mpr htok
    cases hu : (update_session_tokens st.sessions session_id new_refresh
        (now + REFRESH_TOKEN_TTL) new_access (now + ACCESS_TOKEN_TTL)
        from_db.refresh_counter).1 with
    | false =>
      simp [DbConnection.refresh_session, hget, heq, hexp, hu]
    | true =>
      simp [DbConnection.refresh_session, hget, heq, hexp, hu]
  · intro sessions session_id rt1 re1 at1 ae1 c rt2 re2 at2 ae2
    unfold update_session_tokens
    simp only []
    rw [List.any_eq_false]
    intro x hx
    simp only [List.mem_map] at hx
    obtain ⟨t, ht, hxt⟩ := hx
    by_cases hcond : t.id = session_id ∧ t.refresh_counter = c
    · rw [if_pos hcond] at hxt
      subst hxt
      simp only [decide_eq_true_eq, not_and]
      intro _
      have : t.refresh_counter = c := hcond.2
      omega
    · rw [if_neg hcond] at hxt
      subst hxt
      simp only [decide_eq_true_eq, not_and]
      intro hid hc
      exact hcond ⟨hid, hc⟩

/-- Witness for C1: the Interrupted-iff-zero-rows equivalence at a concrete
session (where the update does match, so neither side holds). -/
theorem C1_refresh_optimistic_concurrency_witness :
    DbConnection.refresh_session stC9 sidW1 (List.replicate 32 0) [1] [2] 100 =
        (.error RequestError.Interrupted, stC9) ↔
      (update_session_tokens stC9.sessions sidW1 [1] (100 + REFRESH_TOKEN_TTL) [2]
        (100 + ACCESS_TOKEN_TTL) 1).1 = false :=
  C1_refresh_optimistic_concurrency.2.2.2.2.1 stC9 sidW1 (List.replicate 32 0) [1] [2] 100
    ⟨List.replicate 32 0, 1000, 1⟩ (by decide) (by decide) (by decide)

/-! ### Claim C7: invite is all-or-nothing -/

theorem create_user_ok_shape (st : DbState) (a dn : String) (salt hash : List Nat)
    (role : UserRole) (inv : Option Int) (uid : Int) (st1 : DbState)
    (h : create_user st a dn salt hash role inv = .ok (uid, st1)) :
    uid = st.next_user_id ∧
    st1 = { st with
      users := st.users ++ [⟨st.next_user_id, a, dn, salt, hash, role, inv⟩],
      next_user_id := st.next_user_id + 1 } := by
  unfold create_user at h
  split at h
  · cases h
  · rw [Except.ok.injEq, Prod.mk.injEq] at h
    exact ⟨h.1.symm, h.2.symm⟩

theorem create_with_self_chat_ok_shape (st : DbState) (caller : Int) (cid : Int) (st2 : DbState)
    (h : create_with_self_chat st caller = .ok (cid, st2)) :
    cid = st.next_chat_id ∧
    st2 = { st with
      chats := st.chats ++ [⟨st.next_chat_id, none, none, ChatKind.WithSelf⟩],
      chats_members := st.chats_members ++ [⟨st.next_chat_id, caller, ChatRole.Owner⟩],
      next_chat_id := st.next_chat_id + 1 } := by
  simp only [create_with_self_chat, create_chat] at h
  split at h
  · cases h
  · rename_i stq hmem
    rw [Except.ok.injEq, Prod.mk.injEq] at h
    simp only [add_member_to_chat] at hmem
    split at hmem
    · cases hmem
    · rw [Except.ok.injEq] at hmem
      exact ⟨h.1.symm, by rw [← h.2, ← hmem]⟩

/-- C7: `invite_user` is all-or-nothing.  On any error the returned state is
the input state (full rollback: no user row, chat row or membership row
becomes observable); on success the state gains exactly one user row, one
`WithSelf` chat row and one `Owner` membership row for the new user in that
chat; and a non-Admin caller fails with `InsufficientPermissions`. -/
theorem C7_invite_atomicity :
    (∀ (st : DbState) (caller : Int) (request : InviteUserRequest)
        (password_salt : List Nat) (hash_password : String → List Nat → List Nat)
        (e : RequestError) (st2 : DbState),
      DbConnection.invite_user st caller request password_salt hash_password =
        (.error e, st2) → st2 = st) ∧
    (∀ (st : DbState) (caller : Int) (request : InviteUserRequest)
        (password_salt : List Nat) (hash_password : String → List Nat → List Nat)
        (user_id : Int) (st2 : DbState),
      DbConnection.invite_user st caller request password_salt hash_password =
        (.ok user_id, st2) →
      user_id = st.next_user_id ∧
      st2 = { st with
        users := st.users ++ [⟨st.next_user_id, request.user_alias, request.display_name,
          password_salt, hash_password request.initial_password password_salt, request.role,
          some caller⟩],
        chats := st.chats ++ [⟨st.next_chat_id, none, none, ChatKind.WithSelf⟩],
        chats_members := st.chats_members ++
          [⟨st.next_chat_id, st.next_user_id, ChatRole.Owner⟩],
        next_user_id := st.next_user_id + 1,
        next_chat_id := st.next_chat_id + 1 }) ∧
    (∀ (st : DbState) (caller : Int) (request : InviteUserRequest)
        (password_salt : List Nat) (hash_password : String → List Nat → List Nat)
        (r : UserRole),
      get_user_role st caller = some r → r ≠ UserRole.Admin →
      DbConnection.invite_user st caller request password_salt hash_password =
        (.error (.Validation (.InsufficientPermissions UserRole.Admin r)), st)) := by
  refine ⟨?_, ?_, ?_⟩
  · intro st caller request password_salt hash_password e st2 h
    unfold DbConnection.invite_user at h
    split at h
    · exact (congrArg Prod.snd h).symm
    · split at h
      · exact (congrArg Prod.snd h).symm
      · split at h
        · exact (congrArg Prod.snd h).symm
        · split at h
          · exact (congrArg Prod.snd h).symm
          · split at h
            · exact (congrArg Prod.snd h).symm
            · split at h
              · exact (congrArg Prod.snd h).symm
              · split at h
                · exact (congrArg Prod.snd h).symm
                · exact Except.noConfusion (congrArg Prod.fst h)
  · intro st caller request password_salt hash_password user_id st2 h
    unfold DbConnection.invite_user at h
    split at h
    · exact Except.noConfusion (congrArg Prod.fst h)
    · split at h
      · exact Except.noConfusion (congrArg Prod.fst h)
      · split at h
        · exact Except.noConfusion (congrArg Prod.fst h)
        · split at h
          · exact Except.noConfusion (congrArg Prod.fst h)
          · split at h
            · exact Except.noConfusion (congrArg Prod.fst h)
            · split at h
              · exact Except.noConfusion (congrArg Prod.fst h)
              · rename_i uid1 st1 hcu
                split at h
                · exact Except.noConfusion (congrArg Prod.fst h)
                · rename_i cid stq hcw
                  simp only [Prod.mk.injEq, Except.ok.injEq] at h
                  obtain ⟨huid, hst⟩ := h
                  obtain ⟨huid1, hst1⟩ := create_user_ok_shape _ _ _ _ _ _ _ _ _ hcu
                  subst hst1
                  obtain ⟨-, hstq⟩ := create_with_self_chat_ok_shape _ _ _ _ hcw
                  subst hstq
                  subst huid
                  subst huid1
                  exact ⟨rfl, hst.symm⟩
  · intro st caller request password_salt hash_password r hrole hne
    simp [DbConnection.invite_user, hrole, hne]

/-- Witness for C7: a Regular caller cannot invite. -/
theorem C7_invite_atomicity_witness :
    DbConnection.invite_user stC10 1
        ⟨"newbie", "Newbie", UserRole.Regular, "longenough"⟩ [0] (fun _ _ => [0]) =
      (.error (.Validation (.InsufficientPermissions UserRole.Admin UserRole.Regular)), stC10) :=
  C7_invite_atomicity.2.2 stC10 1 ⟨"newbie", "Newbie", UserRole.Regular, "longenough"⟩ [0]
    (fun _ _ => [0]) UserRole.Regular (by decide) (by decide)

/-! ### Claim C2: private-chat creation and its existence check -/

/-- What `private_chat_exists` actually tests: some pair of membership rows in
the same chat with distinct user ids matching the two given users — with no
constraint on the chat's kind. -/
theorem private_chat_exists_iff (members : List MemberRow) (a b : Int) :
    private_chat_exists members a b = true ↔
      ∃ ma ∈ members, ∃ mb ∈ members,
        ma.chat_id = mb.chat_id ∧ ma.user_id ≠ mb.user_id ∧
        ma.user_id = a ∧ mb.user_id = b := by
  simp [private_chat_exists, List.any_eq_true]

/-- C2 counterexample state: Alice (1) and Bob (2) are both members of one
Group chat and of no Private chat. -/
def stC2 : DbState :=
  { users := [⟨1, "alice", "Alice", [0], [0], UserRole.Regular, none⟩,
              ⟨2, "bob", "Bob", [0], [0], UserRole.Regular, none⟩],
    chats := [⟨10, some "friends", none, ChatKind.Group⟩],
    chats_members := [⟨10, 1, ChatRole.Member⟩, ⟨10, 2, ChatRole.Member⟩],
    sessions := [], next_user_id := 3, next_chat_id := 11 }

/-- C2 counterexample: `create_private_chat` fails with `AlreadyExists` even
though no chat of kind `Private` exists at all — the existence check does not
constrain the chat kind, so a shared Group chat already blocks the pair. -/
theorem C2_private_chat_counterexample :
    DbConnection.create_private_chat stC2 1 "bob" =
      (.error (.Validation .AlreadyExists), stC2) ∧
    stC2.chats.all (fun c => decide (c.kind ≠ ChatKind.Private)) = true := by
  decide

theorem create_private_chat_tx_ok_shape (st : DbState) (caller recipient cid : Int)
    (st3 : DbState) (h : create_private_chat_tx st caller recipient = .ok (cid, st3)) :
    cid = st.next_chat_id ∧
    st3 = { st with
      chats := st.chats ++ [⟨st.next_chat_id, none, none, ChatKind.Private⟩],
      chats_members := st.chats_members ++
        [⟨st.next_chat_id, caller, ChatRole.Member⟩,
         ⟨st.next_chat_id, recipient, ChatRole.Member⟩],
      next_chat_id := st.next_chat_id + 1 } := by
  simp only [create_private_chat_tx, create_chat] at h
  split at h
  · cases h
  · rename_i st2 hm1
    split at h
    · cases h
    · rename_i st3x hm2
      rw [Except.ok.injEq, Prod.mk.injEq] at h
      simp only [add_member_to_chat] at hm1 hm2
      split at hm1
      · cases hm1
      · split at hm2
        · cases hm2
        · rw [Except.ok.injEq] at hm1 hm2
          refine ⟨h.1.symm, ?_⟩
          rw [← h.2, ← hm2, ← hm1]
          simp

/-- C2 (amended): for a resolvable recipient alias, `create_private_chat`
fails with `AlreadyExists` exactly when some chat — of any kind, not only
`Private` — already has the caller and the recipient as two distinct members;
otherwise (for a distinct recipient and a fresh chat id) it inserts, in one
transaction, one `Private` chat row and exactly two `Member` membership rows
and returns the new chat id; and the check is symmetric: after a successful
creation the reverse call fails with `AlreadyExists`. -/
theorem C2_private_chat_creation :
    (∀ (members : List MemberRow) (a b : Int),
      private_chat_exists members a b = true ↔
        ∃ ma ∈ members, ∃ mb ∈ members,
          ma.chat_id = mb.chat_id ∧ ma.user_id ≠ mb.user_id ∧
          ma.user_id = a ∧ mb.user_id = b) ∧
    (∀ (st : DbState) (caller : Int) (recipient_alias : String) (recipient_id : Int),
      get_user_id_by_alias st recipient_alias = some recipient_id →
      (DbConnection.create_private_chat st caller recipient_alias =
          (.error (.Validation .AlreadyExists), st) ↔
        private_chat_exists st.chats_members caller recipient_id = true)) ∧
    (∀ (st : DbState) (caller : Int) (recipient_alias : String) (recipient_id : Int),
      get_user_id_by_alias st recipient_alias = some recipient_id →
      private_chat_exists st.chats_members caller recipient_id = false →
      caller ≠ recipient_id →
      (∀ m ∈ st.chats_members, m.chat_id ≠ st.next_chat_id) →
      DbConnection.create_private_chat st caller recipient_alias =
        (.ok st.next_chat_id,
         { st with
           chats := st.chats ++ [⟨st.next_chat_id, none, none, ChatKind.Private⟩],
           chats_members := st.chats_members ++
             [⟨st.next_chat_id, caller, ChatRole.Member⟩,
              ⟨st.next_chat_id, recipient_id, ChatRole.Member⟩],
           next_chat_id := st.next_chat_id + 1 })) ∧
    (∀ (st st2 : DbState) (caller : Int) (recipient_alias caller_alias : String)
        (recipient_id chat_id : Int),
      get_user_id_by_alias st recipient_alias = some recipient_id →
      DbConnection.create_private_chat st caller recipient_alias = (.ok chat_id, st2) →
      get_user_id_by_alias st2 caller_alias = some caller →
      caller ≠ recipient_id →
      DbConnection.create_private_chat st2 recipient_id caller_alias =
        (.error (.Validation .AlreadyExists), st2)) := by
  refine ⟨private_chat_exists_iff, ?_, ?_, ?_⟩
  · intro st caller recipient_alias recipient_id hres
    cases hpce : private_chat_exists st.chats_members caller recipient_id with
    | true =>
      simp [DbConnection.create_private_chat, hres, hpce]
    | false =>
      simp only [DbConnection.create_private_chat, hres, hpce, Bool.false_eq_true, if_false]
      constructor
      · intro h
        cases htx : create_private_chat_tx st caller recipient_id with
        | error e =>
          rw [htx] at h
          exact absurd (congrArg Prod.fst h) (by simp)
        | ok p =>
          rw [htx] at h
          exact absurd (congrArg Prod.fst h) (by simp)
      · intro h
        exact absurd h (by simp)
  · intro st caller recipient_alias recipient_id hres hpce hne hfresh
    have h1 : ¬∃ x ∈ st.chats_members, x.user_id = caller ∧ x.chat_id = st.next_chat_id := by
      rintro ⟨x, hx, -, hchat⟩
      exact hfresh x hx hchat
    have h2 : ¬∃ x ∈ st.chats_members, x.user_id = recipient_id ∧ x.chat_id = st.next_chat_id := by
      rintro ⟨x, hx, -, hchat⟩
      exact hfresh x hx hchat
    simp only [DbConnection.create_private_chat, hres, hpce, Bool.false_eq_true, if_false,
      create_private_chat_tx, create_chat, add_member_to_chat]
    simp [h1, h2, hne]
  · intro st st2 caller recipient_alias caller_alias recipient_id chat_id hres hok hres2 hne
    unfold DbConnection.create_private_chat at hok
    simp only [hres] at hok
    cases hpce : private_chat_exists st.chats_members caller recipient_id with
    | true =>
      rw [hpce] at hok
      simp only [if_true] at hok
      exact absurd (congrArg Prod.fst hok) (by simp)
    | false =>
      rw [hpce] at hok
      simp only [Bool.false_eq_true, if_false] at hok
      cases htx : create_private_chat_tx st caller recipient_id with
      | error e =>
        rw [htx] at hok
        exact absurd (congrArg Prod.fst hok) (by simp)
      | ok p =>
        obtain ⟨cid, st3⟩ := p
        rw [htx] at hok
        obtain ⟨-, hshape⟩ := create_private_chat_tx_ok_shape st caller recipient_id cid st3 htx
        have hst : st3 = st2 := congrArg Prod.snd hok
        have hpce2 : private_chat_exists st2.chats_members recipient_id caller = true := by
          rw [← hst, hshape]
          refine (private_chat_exists_iff _ _ _).mpr
            ⟨⟨st.next_chat_id, recipient_id, ChatRole.Member⟩, by simp,
             ⟨st.next_chat_id, caller, ChatRole.Member⟩, by simp, rfl, ?_, rfl, rfl⟩
          exact fun h => hne h.symm
        simp [DbConnection.create_private_chat, hres2, hpce2]

/-- State for the C2 witness: Alice and Bob share no chat yet. -/
def stC2b : DbState :=
  { users := [⟨1, "alice", "Alice", [0], [0], UserRole.Regular, none⟩,
              ⟨2, "bob", "Bob", [0], [0], UserRole.Regular, none⟩],
    chats := [], chats_members := [], sessions := [],
    next_user_id := 3, next_chat_id := 1 }

/-- Witness for C2: the fresh creation succeeds with exactly the two
membership rows. -/
theorem C2_private_chat_creation_witness :
    DbConnection.create_private_chat stC2b 1 "bob" =
      (.ok stC2b.next_chat_id,
       { stC2b with
         chats := stC2b.chats ++ [⟨stC2b.next_chat_id, none, none, ChatKind.Private⟩],
         chats_members := stC2b.chats_members ++
           [⟨stC2b.next_chat_id, 1, ChatRole.Member⟩,
            ⟨stC2b.next_chat_id, 2, ChatRole.Member⟩],
         next_chat_id := stC2b.next_chat_id + 1 }) :=
  C2_private_chat_creation.2.2.1 stC2b 1 "bob" 2 (by decide) (by decide) (by decide)
    (by decide)

/-! ### Claim C5: per-user session cap -/

theorem keep_eq_false_of_mem_drop (l : List SessionRow) (max_sessions : Nat) (d : SessionRow)
    (hd : d ∈ (l.insertionSort session_newer).drop max_sessions) :
    (!((l.insertionSort session_newer).drop max_sessions).any
      (fun x => decide (x.id = d.id))) = false := by
  simp only [Bool.not_eq_false', List.any_eq_true, decide_eq_true_eq]
  exact ⟨d, hd, rfl⟩

theorem trim_count_le (sessions : List SessionRow) (user_id : Int) (max_sessions : Nat) :
    ((trim_sessions_for_user sessions user_id max_sessions).filter
      (fun s => decide (s.user_id = user_id))).length ≤ max_sessions := by
  unfold trim_sessions_for_user
  simp only []
  set l := sessions.filter (fun s => decide (s.user_id = user_id)) with hl
  set o := l.insertionSort session_newer with ho
  set keep := fun s : SessionRow =>
    !(o.drop max_sessions).any (fun d => decide (d.id = s.id)) with hk
  have hcomm : (sessions.filter keep).filter (fun s => decide (s.user_id = user_id)) =
      l.filter keep := by
    rw [List.filter_filter, hl, List.filter_filter]
    exact List.filter_congr (fun a _ => Bool.and_comm _ _)
  rw [hcomm]
  have hperm : (l.filter keep).length = (o.filter keep).length :=
    ((List.perm_insertionSort session_newer l).filter keep).length_eq.symm
  rw [hperm]
  have hsplit : o.filter keep =
      (o.take max_sessions).filter keep ++ (o.drop max_sessions).filter keep := by
    rw [← List.filter_append, List.take_append_drop]
  have hnil : (o.drop max_sessions).filter keep = [] := by
    rw [List.filter_eq_nil_iff]
    intro d hd
    rw [hk]
    simp only [Bool.not_eq_true']
    have := keep_eq_false_of_mem_drop l max_sessions d hd
    simpa using this
  rw [hsplit, hnil, List.append_nil]
  calc ((o.take max_sessions).filter keep).length
      ≤ (o.take max_sessions).length := List.length_filter_le _ _
    _ ≤ max_sessions := by
        rw [List.length_take]
        omega

theorem mem_trim_iff (sessions : List SessionRow) (user_id : Int) (max_sessions : Nat)
    (s : SessionRow) :
    s ∈ trim_sessions_for_user sessions user_id max_sessions ↔
      s ∈ sessions ∧
      (!(((sessions.filter (fun x => decide (x.user_id = user_id))).insertionSort
          session_newer).drop max_sessions).any (fun d => decide (d.id = s.id))) = true := by
  unfold trim_sessions_for_user
  simp only []
  exact List.mem_filter

theorem trim_keeps_newest (sessions : List SessionRow) (user_id : Int) (max_sessions : Nat)
    (hnodup : (sessions.map SessionRow.id).Nodup)
    (s t : SessionRow)
    (hs : s ∈ trim_sessions_for_user sessions user_id max_sessions)
    (hsu : s.user_id = user_id)
    (ht : t ∈ sessions) (htu : t.user_id = user_id)
    (htdel : t ∉ trim_sessions_for_user sessions user_id max_sessions) :
    t.access_token_expires_at ≤ s.access_token_expires_at := by
  set l := sessions.filter (fun x => decide (x.user_id = user_id)) with hl
  set o := l.insertionSort session_newer with ho
  obtain ⟨hs_mem, hs_keep⟩ := (mem_trim_iff sessions user_id max_sessions s).mp hs
  have ht_keep : (!(o.drop max_sessions).any (fun d => decide (d.id = t.id))) = false := by
    cases hb : (!(o.drop max_sessions).any (fun d => decide (d.id = t.id))) with
    | false => rfl
    | true => exact absurd ((mem_trim_iff sessions user_id max_sessions t).mpr ⟨ht, hb⟩) htdel
  have ht_doomed : ∃ d ∈ o.drop max_sessions, d.id = t.id := by
    have := ht_keep
    simp only [Bool.not_eq_false', List.any_eq_true, decide_eq_true_eq] at this
    simpa using this
  obtain ⟨d, hd, hdid⟩ := ht_doomed
  have hd_sessions : d ∈ sessions := by
    have hd_o : d ∈ o := List.drop_subset _ _ hd
    have hd_l : d ∈ l := (List.perm_insertionSort session_newer l).mem_iff.mp hd_o
    exact List.mem_of_mem_filter hd_l
  have hdt : d = t := List.inj_on_of_nodup_map hnodup hd_sessions ht hdid
  subst hdt
  have hs_l : s ∈ l := by
    rw [hl, List.mem_filter]
    exact ⟨hs_mem, by simp [hsu]⟩
  have hs_o : s ∈ o := (List.perm_insertionSort session_newer l).mem_iff.mpr hs_l
  have hs_take : s ∈ o.take max_sessions := by
    rcases List.mem_append.mp ((List.take_append_drop max_sessions o) ▸ hs_o) with h | h
    · exact h
    · exfalso
      have : (!(o.drop max_sessions).any (fun x => decide (x.id = s.id))) = false := by
        simp only [Bool.not_eq_false', List.any_eq_true, decide_eq_true_eq]
        exact ⟨s, h, rfl⟩
      rw [hs_keep] at this
      exact absurd this (by simp)
  have hsorted : List.Sorted session_newer o := List.sorted_insertionSort session_newer l
  exact hsorted.rel_of_mem_take_of_mem_drop hs_take hd

theorem trim_evicted_resolve (st : DbState) (user_id : Int) (max_sessions : Nat)
    (t : SessionRow) (ht : t ∈ st.sessions)
    (htdel : t ∉ trim_sessions_for_user st.sessions user_id max_sessions)
    (access_token : List Nat) (now : Int) :
    DbConnection.resolve_session
      { st with sessions := trim_sessions_for_user st.sessions user_id max_sessions }
      t.id access_token now = .error SessionError.TokenNotFound := by
  set o := (st.sessions.filter (fun x => decide (x.user_id = user_id))).insertionSort
    session_newer with ho
  have ht_keep : (!(o.drop max_sessions).any (fun d => decide (d.id = t.id))) = false := by
    cases hb : (!(o.drop max_sessions).any (fun d => decide (d.id = t.id))) with
    | false => rfl
    | true => exact absurd ((mem_trim_iff st.sessions user_id max_sessions t).mpr ⟨ht, hb⟩) htdel
  obtain ⟨d, hd, hdid⟩ : ∃ d ∈ o.drop max_sessions, d.id = t.id := by
    have := ht_keep
    simp only [Bool.not_eq_false', List.any_eq_true, decide_eq_true_eq] at this
    simpa using this
  have hnone : get_access_token
      (trim_sessions_for_user st.sessions user_id max_sessions) t.id = none := by
    unfold get_access_token
    rw [Option.map_eq_none', List.find?_eq_none]
    intro r hr
    obtain ⟨-, hr_keep⟩ := (mem_trim_iff st.sessions user_id max_sessions r).mp hr
    simp only [decide_eq_true_eq]
    intro hrid
    rw [← ho] at hr_keep
    have : (!(o.drop max_sessions).any (fun x => decide (x.id = r.id))) = true := hr_keep
    simp only [Bool.not_eq_true', List.any_eq_false, decide_eq_true_eq] at this
    exact this d hd (hdid.trans hrid.symm)
  simp [DbConnection.resolve_session, hnone]

theorem login_ok_sessions (st : DbState) (a password : String)
    (hash_password : String → List Nat → List Nat)
    (refresh_token access_token : List Nat) (session_id : SessionId) (now : Int)
    (p : TokenExchangePayload) (st2 : DbState)
    (creds : GetUserCredentialsByAliasResponse)
    (hcreds : get_user_credentials_by_alias st a = some creds)
    (h : DbConnection.login st a password hash_password refresh_token access_token
      session_id now = (.ok p, st2)) :
    st2.sessions = trim_sessions_for_user
      (st.sessions ++ [⟨session_id, creds.user_id, refresh_token, now + REFRESH_TOKEN_TTL,
        access_token, now + ACCESS_TOKEN_TTL, 1⟩])
      creds.user_id MAX_SESSIONS_PER_USER := by
  unfold DbConnection.login at h
  simp only [hcreds] at h
  split at h
  · exact Except.noConfusion (congrArg Prod.fst h)
  · split at h
    · exact Except.noConfusion (congrArg Prod.fst h)
    · rename_i sid1 st1 hcs
      simp only [create_session] at hcs
      split at hcs
      · cases hcs
      · rw [Except.ok.injEq, Prod.mk.injEq] at hcs
        have hst2 : st2 = { st1 with
            sessions := trim_sessions_for_user st1.sessions creds.user_id
              MAX_SESSIONS_PER_USER } :=
          (congrArg Prod.snd h).symm
        rw [hst2, ← hcs.2]

/-- C5: `MAX_SESSIONS_PER_USER` is 100; `trim_sessions_for_user` leaves at
most the cap many sessions of the user, keeps only sessions whose
`access_token_expires_at` is at least that of every evicted one (the smallest
expiry is evicted first), and an evicted session thereafter fails
`resolve_session` with `TokenNotFound` for every presented token; in
particular after any successful `login` the logged-in user has at most
`MAX_SESSIONS_PER_USER` session rows. -/
theorem C5_session_cap :
    MAX_SESSIONS_PER_USER = 100 ∧
    (∀ (sessions : List SessionRow) (user_id : Int) (max_sessions : Nat),
      ((trim_sessions_for_user sessions user_id max_sessions).filter
        (fun s => decide (s.user_id = user_id))).length ≤ max_sessions) ∧
    (∀ (st : DbState) (a password : String) (hash_password : String → List Nat → List Nat)
        (refresh_token access_token : List Nat) (session_id : SessionId) (now : Int)
        (p : TokenExchangePayload) (st2 : DbState)
        (creds : GetUserCredentialsByAliasResponse),
      get_user_credentials_by_alias st a = some creds →
      DbConnection.login st a password hash_password refresh_token access_token
        session_id now = (.ok p, st2) →
      ((st2.sessions.filter (fun s => decide (s.user_id = creds.user_id))).length ≤
        MAX_SESSIONS_PER_USER)) ∧
    (∀ (sessions : List SessionRow) (user_id : Int) (max_sessions : Nat),
      (sessions.map SessionRow.id).Nodup →
      ∀ s t : SessionRow,
        s ∈ trim_sessions_for_user sessions user_id max_sessions → s.user_id = user_id →
        t ∈ sessions → t.user_id = user_id →
        t ∉ trim_sessions_for_user sessions user_id max_sessions →
        t.access_token_expires_at ≤ s.access_token_expires_at) ∧
    (∀ (st : DbState) (user_id : Int) (max_sessions : Nat) (t : SessionRow),
      t ∈ st.sessions →
      t ∉ trim_sessions_for_user st.sessions user_id max_sessions →
      ∀ (access_token : List Nat) (now : Int),
        DbConnection.resolve_session
          { st with sessions := trim_sessions_for_user st.sessions user_id max_sessions }
          t.id access_token now = .error SessionError.TokenNotFound) := by
  refine ⟨rfl, trim_count_le, ?_, ?_, ?_⟩
  · intro st a password hash_password refresh_token access_token session_id now p st2
      creds hcreds h
    rw [login_ok_sessions st a password hash_password refresh_token access_token
      session_id now p st2 creds hcreds h]
    exact trim_count_le _ _ _
  · intro sessions user_id max_sessions hnodup s t hs hsu ht htu htdel
    exact trim_keeps_newest sessions user_id max_sessions hnodup s t hs hsu ht htu htdel
  · intro st user_id max_sessions t ht htdel access_token now
    exact trim_evicted_resolve st user_id max_sessions t ht htdel access_token now

/-- State for the C5 witness: one user, no sessions yet. -/
def stC5 : DbState :=
  { users := [⟨1, "alice", "Alice", [1], [7], UserRole.Regular, none⟩],
    chats := [], chats_members := [], sessions := [],
    next_user_id := 2, next_chat_id := 1 }

/-- Witness for C5: after a concrete successful login the user's session
count is within the cap. -/
theorem C5_session_cap_witness :
    (((DbConnection.login stC5 "alice" "pw" (fun _ _ => [7]) [3] [4] sidW2
        0).2).sessions.filter (fun s => decide (s.user_id = (1 : Int)))).length ≤
      MAX_SESSIONS_PER_USER :=
  C5_session_cap.2.2.1 stC5 "alice" "pw" (fun _ _ => [7]) [3] [4] sidW2 0
    ⟨sidW2, [3], REFRESH_TOKEN_TTL, [4], ACCESS_TOKEN_TTL⟩
    (DbConnection.login stC5 "alice" "pw" (fun _ _ => [7]) [3] [4] sidW2 0).2
    ⟨1, [7], [1]⟩ (by decide) (by decide)

/-- Witness for C3 at a concrete state: the success case of the
equivalence. -/
theorem C3_resolve_access_token_witness :
    DbConnection.resolve_session stC9 sidW1 (List.replicate 32 0) 100 = .ok 2 ↔
      ∃ t, get_access_token stC9.sessions sidW1 = some t ∧
        List.replicate 32 0 = t.access_token ∧ (100 : Int) < t.access_token_expires_at ∧
        (2 : Int) = t.user_id :=
  (C3_resolve_access_token stC9 sidW1 (List.replicate 32 0) 100).2.2 2

